import Mathlib

/-!
Shallow embedding of the credential lifecycle and upload transaction of
`imgurup` (file `imgurup/__init__.py`).

The Python code is single-threaded and effectful (HTTP requests, a config
file, dialogs, sleeps).  We embed it as pure functions that thread the
relevant state explicitly and additionally return a trace of the
observable events (operation calls, config reads/writes, token-refresh
requests, sleeps, upload requests), so that claims about how often an
effect happens become statements about the trace.

JSON responses are embedded as a structure of optional fields: `none`
models an absent key, and reading an absent key is the Python `KeyError`.
Python `int` values are embedded as `Int`.
-/

/-- Python exceptions that the embedded fragments can raise. -/
inductive PyErr where
  | keyError
  | indexError
  | typeError
  | valueError (msg : String)
  deriving Repr, DecidableEq

/-- Result of running an embedded effectful fragment: a normal value,
a `show_error_and_exit` call (which terminates the process after showing
`msg`), or an uncaught Python exception. -/
inductive Outcome (α : Type) where
  | ok (a : α)
  | fatal (msg : String)
  | exc (e : PyErr)
  deriving Repr, DecidableEq

/-- Observable effects of the embedded code. -/
inductive Event where
  /-- one invocation of the operation wrapped by the `retry` decorator -/
  | call (k : Nat)
  /-- `set_tokens_using_config`: read of the credential config file -/
  | loadConfig
  /-- `request_new_tokens`: POST to the token endpoint with grant_type=refresh_token -/
  | refreshReq (k : Nat)
  /-- `write_tokens_to_config`: write of the credential config file -/
  | saveConfig
  /-- `time.sleep(d)` -/
  | sleep (d : Int)
  /-- one POST of the upload request issued by `upload` -/
  | uploadReq (k : Nat)
  /-- `show_link`: display of the resulting link -/
  | showLink
  deriving Repr, DecidableEq

/-- The `data` object of an API response envelope; every key optional. -/
structure RespData where
  error : Option String
  link : Option String
  deletehash : Option String
  deriving Repr, DecidableEq

/-- A JSON response as the code reads it: the envelope keys `success` and
`data`, and the token-endpoint keys `access_token` / `refresh_token`
(the code reads the latter at top level of the response). -/
structure Response where
  success : Option Bool
  data : Option RespData
  access_token : Option String
  refresh_token : Option String
  deriving Repr, DecidableEq

/-- The in-memory token pair `self._access_token` / `self._refresh_token`.
`none` models Python `None`. -/
structure Tokens where
  access : Option String
  refresh : Option String
  deriving Repr, DecidableEq

/-- The `[Token]` section of the config file `~/.imgurup.conf`; `none`
models an absent key (or an absent file). -/
structure Config where
  access_token : Option String
  refresh_token : Option String
  deriving Repr, DecidableEq

/-- `Imgur.is_success`: a response whose `success` key is present and
falsy is a failure, any other response counts as success.  On the failure
path the code logs the `error` field under `data` before returning, so a
failure envelope without `data` or without its `error` key raises
`KeyError`. -/
def is_success (r : Response) : Except PyErr Bool :=
  match r.success with
  | some false =>
    match r.data with
    | none => .error .keyError
    | some d =>
      match d.error with
      | none => .error .keyError
      | some _ => .ok false
  | _ => .ok true

/-- `Imgur.set_tokens_using_config`: each token is read from the config
independently; a missing key sets that token (and only that token) to `None`. -/
def set_tokens_using_config (cfg : Config) : Tokens :=
  { access := cfg.access_token, refresh := cfg.refresh_token }

/-- `Imgur.write_tokens_to_config`: sets `access_token` and `refresh_token`
in the `[Token]` section and writes the file back.  `SafeConfigParser.set`
raises `TypeError` when a value is `None`, so saving requires both tokens
present.  The serialization through the config-file text is abstracted as
the key-value map `Config`. -/
def write_tokens_to_config (t : Tokens) (cfg : Config) : Except PyErr Config :=
  match t.access, t.refresh with
  | some a, some r => .ok { cfg with access_token := some a, refresh_token := some r }
  | _, _ => .error .typeError

/-- `Imgur.request_new_tokens_and_update` for refresh-response `rresp`
(labelled `j` in the trace), starting from in-memory tokens `t`:
if the refresh token is `None`, first load from the config; if still
`None`, exit with an error without any request; otherwise POST the
refresh request and, on a success envelope, replace both tokens from the
response (reading an absent token key raises `KeyError`), else exit. -/
def request_new_tokens_and_update (cfg : Config) (rresp : Response) (j : Nat) (t : Tokens) :
    List Event × Outcome Tokens :=
  let ld : List Event × Tokens :=
    match t.refresh with
    | none => ([Event.loadConfig], set_tokens_using_config cfg)
    | some _ => ([], t)
  match ld.2.refresh with
  | none =>
    -- paraphrase of the source message, which reads: cannot read the
    -- value of refresh_token, you may have to authorize again
    (ld.1, .fatal "Cannot read the value of refresh_token, you may have to authorize again")
  | some _ =>
    let tr := ld.1 ++ [Event.refreshReq j]
    match is_success rresp with
    | .error e => (tr, .exc e)
    | .ok false => (tr, .fatal "Update tokens fail")
    | .ok true =>
      match rresp.access_token with
      | none => (tr, .exc .keyError)
      | some a =>
        match rresp.refresh_token with
        | none => (tr, .exc .keyError)
        | some r => (tr, .ok { access := some a, refresh := some r })

/-- Token update performed by `Imgur.auth` after the PIN exchange: on a
success envelope both tokens are replaced from the response; on a failure
envelope the process exits with an authorization error. -/
def auth_token_update (pinResp : Response) : Outcome Tokens :=
  match is_success pinResp with
  | .error e => .exc e
  | .ok false => .fatal "Authorization error"
  | .ok true =>
    match pinResp.access_token with
    | none => .exc .keyError
    | some a =>
      match pinResp.refresh_token with
      | none => .exc .keyError
      | some r => .ok { access := some a, refresh := some r }

/-- The body of the function returned by the `retry` decorator, after the
number of remaining loop iterations has been computed: `fuel` counts the
iterations of `while mtries > 1` that may still run (`fuel = tries - 1`
initially), `k` numbers the attempts, `t`/`cfg` are the in-memory tokens
and the config file.  `resp k` is the response of the `k`-th call of the
wrapped operation and `rresp k` the response of the refresh request made
after the `k`-th failed call. -/
def retry_go (resp : Nat → Response) (rresp : Nat → Response) (fname : String) (mdelay : Int) :
    Nat → Nat → Tokens → Config → List Event × Outcome RespData
  | 0, k, _, _ =>
    -- after the loop: one final call, fatal error on failure
    match is_success (resp k) with
    | .error e => ([Event.call k], .exc e)
    | .ok true =>
      match (resp k).data with
      | some d => ([Event.call k], .ok d)
      | none => ([Event.call k], .exc .keyError)
    | .ok false => ([Event.call k], .fatal ("Error in " ++ fname))
  | fuel + 1, k, t, cfg =>
    match is_success (resp k) with
    | .error e => ([Event.call k], .exc e)
    | .ok true =>
      match (resp k).data with
      | some d => ([Event.call k], .ok d)
      | none => ([Event.call k], .exc .keyError)
    | .ok false =>
      match request_new_tokens_and_update cfg (rresp k) k t with
      | (tr1, .ok t1) =>
        match write_tokens_to_config t1 cfg with
        | .ok cfg1 =>
          let rest := retry_go resp rresp fname mdelay fuel (k + 1) t1 cfg1
          (Event.call k :: tr1 ++ [Event.saveConfig, Event.sleep mdelay] ++ rest.1, rest.2)
        | .error e => (Event.call k :: tr1 ++ [Event.saveConfig], .exc e)
      | (tr1, .fatal m) => (Event.call k :: tr1, .fatal m)
      | (tr1, .exc e) => (Event.call k :: tr1, .exc e)

/-- The `retry(tries, delay)` decorator applied to an operation named
`fname`.  `tries` is floored (identity on `Int`) and validated:
`tries < 0` and `delay <= 0` raise `ValueError` at decoration time,
before any call of the operation.  Otherwise the wrapped runner executes
with `mtries = tries`, i.e. `tries - 1` potential loop iterations
followed by the final call. -/
def retry (tries : Int) (delay : Int) (resp : Nat → Response) (rresp : Nat → Response)
    (cfg : Config) (t : Tokens) (fname : String) :
    Except PyErr (List Event × Outcome RespData) :=
  if tries < 0 then .error (.valueError "tries must be 0 or greater")
  else if delay ≤ 0 then .error (.valueError "delay must be greater than 0")
  else .ok (retry_go resp rresp fname delay (tries - 1).toNat 0 t cfg)

/-- `Imgur.show_link`: reads the `link` and `deletehash` keys under
`data`; `KeyError` when any is absent. -/
def show_link (r : Response) : Except PyErr Unit :=
  match r.data with
  | none => .error .keyError
  | some d =>
    match d.link, d.deletehash with
    | some _, some _ => .ok ()
    | _, _ => .error .keyError

/-- The anonymous branch of `Imgur.upload` (`anonymous=True`, image path
given): the in-memory tokens start as `None` (constructor), the multipart
body is built and POSTed once; the final block of `upload` then checks the
envelope and, on failure, reauthorizes (`request_new_tokens_and_update`
followed by `write_tokens_to_config`) and POSTs the same request a second
time, exiting fatally only if the second response also fails. -/
def upload_anonymous (cfg : Config) (resp : Nat → Response) (rresp : Response) :
    List Event × Outcome Unit :=
  match is_success (resp 0) with
  | .error e => ([Event.uploadReq 0], .exc e)
  | .ok true =>
    match show_link (resp 0) with
    | .ok _ => ([Event.uploadReq 0, Event.showLink], .ok ())
    | .error e => ([Event.uploadReq 0], .exc e)
  | .ok false =>
    match request_new_tokens_and_update cfg rresp 0 { access := none, refresh := none } with
    | (tr1, .fatal m) => (Event.uploadReq 0 :: tr1, .fatal m)
    | (tr1, .exc e) => (Event.uploadReq 0 :: tr1, .exc e)
    | (tr1, .ok t1) =>
      match write_tokens_to_config t1 cfg with
      | .error e => (Event.uploadReq 0 :: tr1, .exc e)
      | .ok _ =>
        let tr2 := Event.uploadReq 0 :: tr1 ++ [Event.saveConfig, Event.uploadReq 1]
        match is_success (resp 1) with
        | .error e => (tr2, .exc e)
        | .ok false => (tr2, .fatal "Upload image error")
        | .ok true =>
          match show_link (resp 1) with
          | .ok _ => (tr2 ++ [Event.showLink], .ok ())
          | .error e => (tr2, .exc e)

/-- Python list indexing `xs[i]`: negative indices count from the end;
out of range raises `IndexError`. -/
def pyGet {α : Type} (xs : List α) (i : Int) : Except PyErr α :=
  let j : Int := if i < 0 then i + xs.length else i
  if j < 0 then .error .indexError
  else
    match xs.get? j.toNat with
    | some a => .ok a
    | none => .error .indexError

/-- An album object as used by `ask_album_id`; only `id` is ever read by
`_get_album_id`, and the sentinel entry appended by the CLI has `id = None`. -/
structure Album where
  id : Option String
  title : String
  privacy : String
  deriving Repr, DecidableEq

/-- `Imgur._get_album_id`: indexes the data map at `album_number - 1`
(Python semantics) and returns the `id` of the entry. -/
def _get_album_id (data_map : List Album) (album_number : Int) : Except PyErr (Option String) :=
  (pyGet data_map (album_number - 1)).map Album.id

/-- The sentinel entry with a `None` id that the CLI appends for
"Do not move to any album" (only its `id` is ever read). -/
def noAlbumEntry : Album := { id := none, title := "", privacy := "" }

/-- `CLIImgur.ask_album_id` after the number has been entered: the data
map is the album list followed by the `noAlbumEntry` sentinel for
"Do not move to any album", and the entered number selects from it
through `_get_album_id`. -/
def cli_ask_album_id (albums : List Album) (album_number : Int) : Except PyErr (Option String) :=
  _get_album_id (albums ++ [noAlbumEntry]) album_number

/-- `Imgur._encode_multipart_data`, parametrised by the generated
boundary, the mime guess for a filename (`mimetypes.guess_type`) and the
bytes of each file as read from disk, both external inputs.
Fields are encoded in order, then files, then the closing boundary line;
the body joins the lines with CRLF and the headers carry the body length. -/
def _encode_multipart_data (data : List (String × String)) (files : List (String × String))
    (guessType : String → Option String) (fileContents : String → String) (boundary : String) :
    String × List (String × String) :=
  let quote := fun (s : String) => "\"" ++ s ++ "\""
  let encode_field := fun (p : String × String) =>
    ["--" ++ boundary,
     "Content-Disposition: form-data; name=" ++ quote p.1,
     "", p.2]
  let encode_file := fun (p : String × String) =>
    ["--" ++ boundary,
     "Content-Disposition: form-data; name=" ++ quote p.1 ++ "; filename=" ++ quote p.2,
     "Content-Type: " ++ ((guessType p.2).getD "application/octet-stream"),
     "", fileContents p.2]
  let lines := data.flatMap encode_field ++ files.flatMap encode_file
      ++ ["--" ++ boundary ++ "--", ""]
  let body := String.intercalate "\r\n" lines
  (body,
   [("content-type", "multipart/form-data; boundary=" ++ boundary),
    ("content-length", toString body.length)])

/-! ### Concrete fixtures used by counterexamples and witnesses -/

/-- A failure envelope carrying `data.error`, as the API sends on failure. -/
def failEnvelope : Response :=
  { success := some false,
    data := some { error := some "The access token provided is invalid.",
                   link := none, deletehash := none },
    access_token := none, refresh_token := none }

/-- A token-endpoint success response: no `success` key, both tokens present. -/
def freshTokenResponse : Response :=
  { success := none, data := none, access_token := some "A2", refresh_token := some "R2" }

/-- A successful upload envelope with link and deletehash. -/
def successUpload : Response :=
  { success := some true,
    data := some { error := none, link := some "http://i.imgur.com/x.png",
                   deletehash := some "d1" },
    access_token := none, refresh_token := none }

/-- A config file holding both token keys. -/
def cfgBoth : Config := { access_token := some "A", refresh_token := some "R" }

def albumA : Album := { id := some "a", title := "Holiday", privacy := "public" }
def albumB : Album := { id := some "b", title := "Work", privacy := "hidden" }
def albumC : Album := { id := some "c", title := "Misc", privacy := "secret" }

/-! ### Helper lemmas -/

theorem pyGet_of_nonneg {α : Type} (xs : List α) (i : Int) (h0 : 0 ≤ i) :
    pyGet xs i = (match xs.get? i.toNat with
      | some a => Except.ok a
      | none => Except.error PyErr.indexError) := by
  simp only [pyGet]
  rw [if_neg (by omega : ¬ i < 0), if_neg (by omega : ¬ i < 0)]

theorem pyGet_of_neg {α : Type} (xs : List α) (i : Int) (h0 : i < 0) :
    pyGet xs i =
      (if i + xs.length < 0 then Except.error PyErr.indexError
       else match xs.get? (i + xs.length).toNat with
         | some a => Except.ok a
         | none => Except.error PyErr.indexError) := by
  simp only [pyGet]
  rw [if_pos h0]

/-! ### C5: save / load round trip -/

/-- C5: for a credentials pair with both tokens non-null, writing them to
the config and reading the config back yields the same pair. -/
theorem save_then_load_roundtrip (a r : String) (cfg : Config) :
    (write_tokens_to_config { access := some a, refresh := some r } cfg).map
        set_tokens_using_config
      = .ok { access := some a, refresh := some r } := rfl

/-! ### C6: multipart content-length -/

/-- C6: for all field maps and file maps (and any boundary, mime guess and
file contents), the headers emitted by `_encode_multipart_data` carry a
`content-length` equal to the exact length of the returned body. -/
theorem multipart_content_length_exact (data files : List (String × String))
    (guessType : String → Option String) (fileContents : String → String) (boundary : String) :
    (_encode_multipart_data data files guessType fileContents boundary).2.lookup "content-length"
      = some (toString
          (_encode_multipart_data data files guessType fileContents boundary).1.length) := by
  simp [_encode_multipart_data, List.lookup]

/-! ### C4: token-pair invariant -/

/-- C4 counterexample: loading from a config file whose `[Token]` section
holds only `access_token` leaves exactly one of the two in-memory tokens
set, refuting "both present or both absent" for the load operation. -/
theorem load_partial_config_yields_partial_tokens :
    (set_tokens_using_config { access_token := some "A", refresh_token := none }).access
        = some "A" ∧
    (set_tokens_using_config { access_token := some "A", refresh_token := none }).refresh
        = none :=
  ⟨rfl, rfl⟩

/-! ### C7: album selection -/

/-- C7 counterexample: with albums `a, b, c`, the out-of-range selection
`-1` is not rejected — Python negative indexing wraps it to the last real
album and returns its id `"c"`; likewise selection `0` silently returns
the no-album sentinel instead of being rejected. -/
theorem album_out_of_range_not_rejected :
    cli_ask_album_id [albumA, albumB, albumC] (-1) = .ok (some "c") ∧
    cli_ask_album_id [albumA, albumB, albumC] 0 = .ok none := by
  constructor <;> rfl

/-- C7 amended: selection 1 yields the id of the first album and selection
`n + 1` (the no-album entry) yields `null`; but out-of-range selections
are not rejected with a `ValidationError`: `0` wraps to the no-album
entry and more generally indices down to `-(n + 1)` wrap Python-style,
while selections above `n + 1` or below `-n` raise an uncaught
`IndexError`. -/
theorem album_selection_python_indexing (albums : List Album) (k : Int) (a : Album)
    (ha : albums.head? = some a) :
    cli_ask_album_id albums 1 = .ok a.id ∧
    cli_ask_album_id albums ((albums.length : Int) + 1) = .ok none ∧
    cli_ask_album_id albums 0 = .ok none ∧
    ((albums.length : Int) + 1 < k → cli_ask_album_id albums k = .error .indexError) ∧
    (k < -(albums.length : Int) → cli_ask_album_id albums k = .error .indexError) := by
  have hlen : (albums ++ [noAlbumEntry]).length = albums.length + 1 := by simp
  refine ⟨?_, ?_, ?_, ?_, ?_⟩
  · unfold cli_ask_album_id _get_album_id
    rw [show (1 : Int) - 1 = 0 by norm_num, pyGet_of_nonneg _ _ le_rfl]
    have h0 : albums ≠ [] := by
      intro h; rw [h] at ha; simp at ha
    obtain ⟨hd, tl, rfl⟩ := List.exists_cons_of_ne_nil h0
    simp only [List.head?_cons, Option.some.injEq] at ha
    subst ha
    rfl
  · unfold cli_ask_album_id _get_album_id
    rw [show (albums.length : Int) + 1 - 1 = (albums.length : Int) by ring,
        pyGet_of_nonneg _ _ (by positivity)]
    simp only [List.get?_eq_getElem?, Int.toNat_natCast, List.getElem?_concat_length]
    rfl
  · unfold cli_ask_album_id _get_album_id
    rw [show (0 : Int) - 1 = -1 by norm_num,
        pyGet_of_neg _ _ (by norm_num)]
    rw [if_neg (by rw [hlen]; push_cast; omega)]
    have h1 : ((-1 : Int) + ((albums ++ [noAlbumEntry]).length : Int)).toNat
        = albums.length := by rw [hlen]; push_cast; omega
    rw [h1]
    simp only [List.get?_eq_getElem?, List.getElem?_concat_length]
    rfl
  · intro hk
    unfold cli_ask_album_id _get_album_id
    rw [pyGet_of_nonneg _ _ (by omega)]
    have h1 : (albums ++ [noAlbumEntry]).get? (k - 1).toNat = none := by
      rw [List.get?_eq_getElem?, List.getElem?_eq_none]
      rw [hlen]; omega
    rw [h1]
    rfl
  · intro hk
    unfold cli_ask_album_id _get_album_id
    rw [pyGet_of_neg _ _ (by omega)]
    rw [if_pos (by rw [hlen]; push_cast; omega)]
    rfl

/-- C7 amended witness at albums `a, b, c` and the too-large selection 9. -/
theorem album_selection_python_indexing_witness :
    cli_ask_album_id [albumA, albumB, albumC] 1 = .ok (some "a") ∧
    cli_ask_album_id [albumA, albumB, albumC] ((([albumA, albumB, albumC].length : Int)) + 1)
      = .ok none ∧
    cli_ask_album_id [albumA, albumB, albumC] 0 = .ok none ∧
    cli_ask_album_id [albumA, albumB, albumC] 9 = .error .indexError ∧
    cli_ask_album_id [albumA, albumB, albumC] (-9) = .error .indexError := by
  have h := album_selection_python_indexing [albumA, albumB, albumC] 9 albumA rfl
  have h2 := album_selection_python_indexing [albumA, albumB, albumC] (-9) albumA rfl
  exact ⟨h.1, h.2.1, h.2.2.1, h.2.2.2.1 (by norm_num), h2.2.2.2.2 (by norm_num)⟩

/-! ### C3: validation of the tries configuration -/

/-- C3 counterexample: `tries = 0` is not rejected — the decorator only
raises for `tries < 0` (its own message says "0 or greater"), and with
`tries = 0` the wrapped operation is still invoked once, failing fatally. -/
theorem retry_accepts_zero_tries :
    retry 0 1 (fun _ => failEnvelope) (fun _ => freshTokenResponse) cfgBoth
        { access := none, refresh := none } "request_upload_image"
      = .ok ([Event.call 0], .fatal "Error in request_upload_image") := rfl

/-- C3 amended: only a negative `tries` is rejected (with `ValueError`)
before any call of the operation; every `tries ≥ 0` — including 0 — is
accepted (0 behaves like 1: the loop is skipped and the single final call
runs). -/
theorem retry_rejects_only_negative_tries (tries delay : Int) (resp rresp : Nat → Response)
    (cfg : Config) (t : Tokens) (fname : String) :
    (tries < 0 →
      retry tries delay resp rresp cfg t fname
        = .error (.valueError "tries must be 0 or greater")) ∧
    (0 ≤ tries → 0 < delay →
      retry tries delay resp rresp cfg t fname
        = .ok (retry_go resp rresp fname delay (tries - 1).toNat 0 t cfg)) := by
  constructor
  · intro h
    unfold retry
    rw [if_pos h]
  · intro h1 h2
    unfold retry
    rw [if_neg (by omega), if_neg (by omega)]

/-- C3 amended witness: `tries = -1` is rejected, `tries = 0` accepted. -/
theorem retry_rejects_only_negative_tries_witness :
    retry (-1) 1 (fun _ => failEnvelope) (fun _ => freshTokenResponse) cfgBoth
        { access := none, refresh := none } "request_album_list"
      = .error (.valueError "tries must be 0 or greater") ∧
    retry 0 1 (fun _ => failEnvelope) (fun _ => freshTokenResponse) cfgBoth
        { access := none, refresh := none } "request_album_list"
      = .ok (retry_go (fun _ => failEnvelope) (fun _ => freshTokenResponse)
          "request_album_list" 1 ((0 : Int) - 1).toNat 0
          { access := none, refresh := none } cfgBoth) :=
  ⟨(retry_rejects_only_negative_tries (-1) 1 _ _ _ _ _).1 (by norm_num),
   (retry_rejects_only_negative_tries 0 1 _ _ _ _ _).2 le_rfl one_pos⟩

/-! ### C4 amended and helper lemmas about the exchanges -/

theorem request_new_tokens_ok_both_set (cfg : Config) (rresp : Response) (j : Nat)
    (t t1 : Tokens)
    (h : (request_new_tokens_and_update cfg rresp j t).2 = Outcome.ok t1) :
    t1.access.isSome ∧ t1.refresh.isSome := by
  simp only [request_new_tokens_and_update] at h
  repeat' split at h
  all_goals (first | (cases h; simp) | simp_all)

theorem auth_token_update_ok_both_set (pinResp : Response) (t2 : Tokens)
    (h : auth_token_update pinResp = Outcome.ok t2) :
    t2.access.isSome ∧ t2.refresh.isSome := by
  simp only [auth_token_update] at h
  repeat' split at h
  all_goals (first | (cases h; simp) | simp_all)

/-- C4 amended: the PIN exchange and the refresh exchange, when they
complete normally, leave both tokens present; but loading from the config
file sets each token independently from its own key, so a config with
exactly one key yields a state with exactly one token set — the
"both present or both absent" invariant holds for the exchanges only,
not for the load. -/
theorem token_pair_invariant_amended (cfg : Config) (rresp pinResp : Response) (j : Nat)
    (t t1 t2 : Tokens)
    (h1 : (request_new_tokens_and_update cfg rresp j t).2 = Outcome.ok t1)
    (h2 : auth_token_update pinResp = Outcome.ok t2) :
    (set_tokens_using_config cfg).access = cfg.access_token ∧
    (set_tokens_using_config cfg).refresh = cfg.refresh_token ∧
    t1.access.isSome ∧ t1.refresh.isSome ∧
    t2.access.isSome ∧ t2.refresh.isSome := by
  obtain ⟨ha1, hr1⟩ := request_new_tokens_ok_both_set cfg rresp j t t1 h1
  obtain ⟨ha2, hr2⟩ := auth_token_update_ok_both_set pinResp t2 h2
  exact ⟨rfl, rfl, ha1, hr1, ha2, hr2⟩

/-- C4 amended witness: a concrete refresh exchange and PIN exchange. -/
theorem token_pair_invariant_amended_witness :
    (set_tokens_using_config cfgBoth).access = cfgBoth.access_token ∧
    (set_tokens_using_config cfgBoth).refresh = cfgBoth.refresh_token ∧
    (Tokens.mk (some "A2") (some "R2")).access.isSome ∧
    (Tokens.mk (some "A2") (some "R2")).refresh.isSome ∧
    (Tokens.mk (some "A2") (some "R2")).access.isSome ∧
    (Tokens.mk (some "A2") (some "R2")).refresh.isSome :=
  token_pair_invariant_amended cfgBoth freshTokenResponse freshTokenResponse 0
    { access := none, refresh := some "R" } _ _ rfl rfl

/-! ### C8: refresh precondition -/

theorem refresh_no_token_fatal (cfg : Config) (rresp : Response) (j : Nat) (t : Tokens)
    (h : t.refresh = none) (hc : cfg.refresh_token = none) :
    request_new_tokens_and_update cfg rresp j t
      = ([Event.loadConfig],
         .fatal "Cannot read the value of refresh_token, you may have to authorize again") := by
  simp [request_new_tokens_and_update, h, set_tokens_using_config, hc]

theorem refresh_trace_after_load (cfg : Config) (rresp : Response) (j : Nat) (t : Tokens)
    (r : String) (h : t.refresh = none) (hc : cfg.refresh_token = some r) :
    (request_new_tokens_and_update cfg rresp j t).1
      = [Event.loadConfig, Event.refreshReq j] := by
  simp only [request_new_tokens_and_update, h, set_tokens_using_config, hc]
  split
  · rfl
  · rfl
  · split
    · rfl
    · split <;> rfl

theorem refresh_trace_in_memory (cfg : Config) (rresp : Response) (j : Nat) (t : Tokens)
    (rt : String) (h : t.refresh = some rt) :
    (request_new_tokens_and_update cfg rresp j t).1 = [Event.refreshReq j] := by
  simp only [request_new_tokens_and_update, h]
  split
  · rfl
  · rfl
  · split
    · rfl
    · split <;> rfl

/-- C8: requesting a refresh with the in-memory refresh token `None`
first consults the credential store; if the refresh token is still absent
the flow exits with an authorization error without any token-exchange
request, and in general the refresh POST happens only when a refresh
token is available in memory or in the store. -/
theorem refresh_consults_store_and_requires_token (cfg : Config) (rresp : Response) (j : Nat)
    (t : Tokens) (h : t.refresh = none) :
    (request_new_tokens_and_update cfg rresp j t).1.head? = some Event.loadConfig ∧
    (cfg.refresh_token = none →
      request_new_tokens_and_update cfg rresp j t
        = ([Event.loadConfig],
           .fatal "Cannot read the value of refresh_token, you may have to authorize again")) ∧
    (cfg.refresh_token.isSome →
      Event.refreshReq j ∈ (request_new_tokens_and_update cfg rresp j t).1) ∧
    (∀ t' : Tokens, Event.refreshReq j ∈ (request_new_tokens_and_update cfg rresp j t').1 →
      t'.refresh.isSome ∨ cfg.refresh_token.isSome) := by
  refine ⟨?_, ?_, ?_, ?_⟩
  · rcases hc : cfg.refresh_token with _ | r
    · rw [refresh_no_token_fatal cfg rresp j t h hc]
      rfl
    · rw [refresh_trace_after_load cfg rresp j t r h hc]
      rfl
  · intro hc
    exact refresh_no_token_fatal cfg rresp j t h hc
  · intro hc
    obtain ⟨r, hr⟩ := Option.isSome_iff_exists.mp hc
    rw [refresh_trace_after_load cfg rresp j t r h hr]
    simp
  · intro t' hmem
    rcases ht' : t'.refresh with _ | rt
    · rcases hc : cfg.refresh_token with _ | r
      · rw [refresh_no_token_fatal cfg rresp j t' ht' hc] at hmem
        simp at hmem
      · right
        simp [hc]
    · left
      simp [ht']

/-- C8 witness: unset in-memory tokens with a stored refresh token. -/
theorem refresh_consults_store_and_requires_token_witness :
    (request_new_tokens_and_update cfgBoth freshTokenResponse 0
        { access := none, refresh := none }).1.head? = some Event.loadConfig :=
  (refresh_consults_store_and_requires_token cfgBoth freshTokenResponse 0
    { access := none, refresh := none } rfl).1

/-! ### C10: responses without a success key -/

/-- A response with no `success` key at all, but with displayable data. -/
def bareSuccessUpload : Response :=
  { success := none,
    data := some { error := none, link := some "http://i.imgur.com/y.png",
                   deletehash := some "d2" },
    access_token := none, refresh_token := none }

/-- C10: a response that lacks the `success` key entirely is classified
successful: `is_success` returns `True`; in the retry loop such a first
response ends the loop at once, returning its `data` with no
reauthorization and no sleep; and in the upload path it leads straight to
`show_link` after the single request. -/
theorem missing_success_key_is_success (r : Response) (resp : Nat → Response)
    (rresp : Nat → Response) (rresp1 : Response) (d : RespData) (cfg : Config) (t : Tokens)
    (fname : String) (mdelay : Int) (fuel : Nat)
    (hr : r.success = none)
    (h0 : (resp 0).success = none) (hd : (resp 0).data = some d)
    (hl : show_link (resp 0) = .ok ()) :
    is_success r = .ok true ∧
    retry_go resp rresp fname mdelay fuel 0 t cfg = ([Event.call 0], .ok d) ∧
    upload_anonymous cfg resp rresp1 = ([Event.uploadReq 0, Event.showLink], .ok ()) := by
  have hs0 : is_success (resp 0) = .ok true := by simp [is_success, h0]
  refine ⟨by simp [is_success, hr], ?_, ?_⟩
  · cases fuel <;> simp [retry_go, hs0, hd]
  · simp [upload_anonymous, hs0, hl]

/-- C10 witness: a concrete envelope without a `success` key. -/
theorem missing_success_key_is_success_witness :
    is_success bareSuccessUpload = .ok true ∧
    retry_go (fun _ => bareSuccessUpload) (fun _ => freshTokenResponse)
        "request_upload_image" 1 1 0 { access := none, refresh := none } cfgBoth
      = ([Event.call 0],
         .ok { error := none, link := some "http://i.imgur.com/y.png",
               deletehash := some "d2" }) ∧
    upload_anonymous cfgBoth (fun _ => bareSuccessUpload) freshTokenResponse
      = ([Event.uploadReq 0, Event.showLink], .ok ()) :=
  missing_success_key_is_success bareSuccessUpload (fun _ => bareSuccessUpload)
    (fun _ => freshTokenResponse) freshTokenResponse
    { error := none, link := some "http://i.imgur.com/y.png", deletehash := some "d2" }
    cfgBoth { access := none, refresh := none } "request_upload_image" 1 1
    rfl rfl rfl rfl

/-! ### C2: anonymous upload -/

/-- C2 counterexample: an anonymous upload whose first response fails is
not immediately fatal — the code falls into the shared reauthorize block:
it reads the credential store (the in-memory tokens are unset), sends a
token refresh, writes the store, and sends the upload request a second
time, here even succeeding. -/
theorem anonymous_failure_retries_and_touches_store :
    upload_anonymous cfgBoth
        (fun k => if k = 0 then failEnvelope else successUpload) freshTokenResponse
      = ([Event.uploadReq 0, Event.loadConfig, Event.refreshReq 0, Event.saveConfig,
          Event.uploadReq 1, Event.showLink], .ok ()) := rfl

/-- C2 amended: an anonymous upload sends the request exactly once and
never touches the credential store only when the first response succeeds;
a failing first response triggers the shared reauthorize-and-resend path
(store read — the anonymous tokens are unset —, refresh request, store
write, one resend), and only failure of the resend is fatal. -/
theorem anonymous_upload_once_only_on_success (cfg : Config) (resp : Nat → Response)
    (rresp : Response) (r : String) :
    (is_success (resp 0) = .ok true → show_link (resp 0) = .ok () →
      upload_anonymous cfg resp rresp = ([Event.uploadReq 0, Event.showLink], .ok ())) ∧
    (is_success (resp 0) = .ok false → is_success (resp 1) = .ok false →
     cfg.refresh_token = some r → is_success rresp = .ok true →
     rresp.access_token.isSome → rresp.refresh_token.isSome →
      upload_anonymous cfg resp rresp
        = ([Event.uploadReq 0, Event.loadConfig, Event.refreshReq 0, Event.saveConfig,
            Event.uploadReq 1], .fatal "Upload image error")) := by
  constructor
  · intro h0 hl
    simp [upload_anonymous, h0, hl]
  · intro h0 h1 hc hr ha hrf
    obtain ⟨a2, ha2⟩ := Option.isSome_iff_exists.mp ha
    obtain ⟨r2, hr2⟩ := Option.isSome_iff_exists.mp hrf
    simp [upload_anonymous, h0, h1, request_new_tokens_and_update, set_tokens_using_config,
          hc, hr, ha2, hr2, write_tokens_to_config]

/-- C2 amended witness: a succeeding first attempt, and a twice-failing
anonymous upload with a stored refresh token. -/
theorem anonymous_upload_once_only_on_success_witness :
    upload_anonymous cfgBoth (fun _ => successUpload) freshTokenResponse
      = ([Event.uploadReq 0, Event.showLink], .ok ()) ∧
    upload_anonymous cfgBoth (fun _ => failEnvelope) freshTokenResponse
      = ([Event.uploadReq 0, Event.loadConfig, Event.refreshReq 0, Event.saveConfig,
          Event.uploadReq 1], .fatal "Upload image error") :=
  ⟨(anonymous_upload_once_only_on_success cfgBoth (fun _ => successUpload)
      freshTokenResponse "R").1 rfl rfl,
   (anonymous_upload_once_only_on_success cfgBoth (fun _ => failEnvelope)
      freshTokenResponse "R").2 rfl rfl rfl rfl rfl rfl⟩

/-! ### C1: retry bound when every attempt fails -/

/-- The expected trace of one failing attempt followed by reauthorization,
repeated: for each of the `m` attempts starting at number `k`, a call,
the refresh request, the config save and a sleep of `d`. -/
def failBlockTrace (d : Int) : Nat → Nat → List Event
  | 0, _ => []
  | m + 1, k => Event.call k :: Event.refreshReq k :: Event.saveConfig :: Event.sleep d ::
      failBlockTrace d m (k + 1)

def isCallEvent : Event → Bool
  | Event.call _ => true
  | _ => false

def isRefreshEvent : Event → Bool
  | Event.refreshReq _ => true
  | _ => false

def isSaveEvent : Event → Bool
  | Event.saveConfig => true
  | _ => false

def isSleepEvent (d : Int) : Event → Bool
  | Event.sleep e => e == d
  | _ => false

theorem failBlockTrace_countP_call (d : Int) (m k : Nat) :
    (failBlockTrace d m k).countP isCallEvent = m := by
  induction m generalizing k with
  | zero => simp [failBlockTrace]
  | succ m ih => simp [failBlockTrace, List.countP_cons, isCallEvent, ih]

theorem failBlockTrace_countP_refresh (d : Int) (m k : Nat) :
    (failBlockTrace d m k).countP isRefreshEvent = m := by
  induction m generalizing k with
  | zero => simp [failBlockTrace]
  | succ m ih => simp [failBlockTrace, List.countP_cons, isRefreshEvent, ih]

theorem failBlockTrace_countP_save (d : Int) (m k : Nat) :
    (failBlockTrace d m k).countP isSaveEvent = m := by
  induction m generalizing k with
  | zero => simp [failBlockTrace]
  | succ m ih => simp [failBlockTrace, List.countP_cons, isSaveEvent, ih]

theorem failBlockTrace_countP_sleep (d : Int) (m k : Nat) :
    (failBlockTrace d m k).countP (isSleepEvent d) = m := by
  induction m generalizing k with
  | zero => simp [failBlockTrace]
  | succ m ih => simp [failBlockTrace, List.countP_cons, isSleepEvent, ih]

theorem retry_go_always_fail (resp rresp : Nat → Response) (fname : String) (d : Int)
    (hfail : ∀ k, is_success (resp k) = .ok false)
    (hre : ∀ k, is_success (rresp k) = .ok true)
    (hra : ∀ k, (rresp k).access_token.isSome)
    (hrr : ∀ k, (rresp k).refresh_token.isSome) :
    ∀ (m k : Nat) (t : Tokens) (cfg : Config), t.refresh.isSome →
      retry_go resp rresp fname d m k t cfg
        = (failBlockTrace d m k ++ [Event.call (k + m)], .fatal ("Error in " ++ fname)) := by
  intro m
  induction m with
  | zero =>
    intro k t cfg ht
    simp [retry_go, hfail k, failBlockTrace]
  | succ m ih =>
    intro k t cfg ht
    obtain ⟨rt, hrt⟩ := Option.isSome_iff_exists.mp ht
    obtain ⟨a2, ha2⟩ := Option.isSome_iff_exists.mp (hra k)
    obtain ⟨r2, hr2⟩ := Option.isSome_iff_exists.mp (hrr k)
    have hupd : request_new_tokens_and_update cfg (rresp k) k t
        = ([Event.refreshReq k], .ok { access := some a2, refresh := some r2 }) := by
      simp [request_new_tokens_and_update, hrt, hre k, ha2, hr2]
    have hih := ih (k + 1) { access := some a2, refresh := some r2 }
        { cfg with access_token := some a2, refresh_token := some r2 } rfl
    have hk : k + 1 + m = k + (m + 1) := by omega
    rw [hk] at hih
    simp only [retry_go, hfail k, hupd, write_tokens_to_config, hih]
    simp [failBlockTrace]

/-- C1: with `maxAttempts = N ≥ 1` and base delay `d > 0`, if every call
of the wrapped operation returns a failure envelope (and every refresh
exchange succeeds, a refresh token being available), the operation is
invoked exactly `N` times, with exactly `N - 1` refresh requests,
`N - 1` config saves and `N - 1` sleeps of the fixed duration `d` — the
trace is `N - 1` blocks `call, refreshReq, saveConfig, sleep d`, one
block between each pair of consecutive calls, followed by the final
call — and the result is the fatal error naming the operation. -/
theorem retry_always_fail_invocation_bound (N d : Int) (resp rresp : Nat → Response)
    (cfg : Config) (t : Tokens) (fname : String)
    (hN : 1 ≤ N) (hd : 0 < d)
    (hfail : ∀ k, is_success (resp k) = .ok false)
    (hre : ∀ k, is_success (rresp k) = .ok true)
    (hra : ∀ k, (rresp k).access_token.isSome)
    (hrr : ∀ k, (rresp k).refresh_token.isSome)
    (ht : t.refresh.isSome) :
    retry N d resp rresp cfg t fname
      = .ok (failBlockTrace d (N - 1).toNat 0 ++ [Event.call (N - 1).toNat],
             .fatal ("Error in " ++ fname)) ∧
    (failBlockTrace d (N - 1).toNat 0 ++ [Event.call (N - 1).toNat]).countP isCallEvent
      = N.toNat ∧
    (failBlockTrace d (N - 1).toNat 0 ++ [Event.call (N - 1).toNat]).countP isRefreshEvent
      = N.toNat - 1 ∧
    (failBlockTrace d (N - 1).toNat 0 ++ [Event.call (N - 1).toNat]).countP isSaveEvent
      = N.toNat - 1 ∧
    (failBlockTrace d (N - 1).toNat 0 ++ [Event.call (N - 1).toNat]).countP (isSleepEvent d)
      = N.toNat - 1 := by
  refine ⟨?_, ?_, ?_, ?_, ?_⟩
  · unfold retry
    rw [if_neg (by omega), if_neg (by omega)]
    rw [retry_go_always_fail resp rresp fname d hfail hre hra hrr (N - 1).toNat 0 t cfg ht]
    rw [Nat.zero_add]
  · rw [List.countP_append, failBlockTrace_countP_call]
    simp [List.countP_cons, isCallEvent]
    omega
  · rw [List.countP_append, failBlockTrace_countP_refresh]
    simp [List.countP_cons, isRefreshEvent]
  · rw [List.countP_append, failBlockTrace_countP_save]
    simp [List.countP_cons, isSaveEvent]
  · rw [List.countP_append, failBlockTrace_countP_sleep]
    simp [List.countP_cons, isSleepEvent]

/-- C1 witness at `N = 3`, `d = 2`, a constant failure envelope and a
constant successful refresh exchange. -/
theorem retry_always_fail_invocation_bound_witness :
    retry 3 2 (fun _ => failEnvelope) (fun _ => freshTokenResponse) cfgBoth
        { access := none, refresh := some "R" } "request_album_list"
      = .ok (failBlockTrace 2 ((3 : Int) - 1).toNat 0 ++ [Event.call ((3 : Int) - 1).toNat],
             .fatal ("Error in " ++ "request_album_list")) :=
  (retry_always_fail_invocation_bound 3 2 (fun _ => failEnvelope)
      (fun _ => freshTokenResponse) cfgBoth { access := none, refresh := some "R" }
      "request_album_list" (by norm_num) (by norm_num)
      (fun _ => rfl) (fun _ => rfl) (fun _ => rfl) (fun _ => rfl) rfl).1
